import Mathlib

/-!
Shallow embedding of the MCP tool server `mcp-server-251215`.

The repository holds two variants of the server source: `src/index.ts`
(embedded here with the suffix `_v1`) and a second, unnamed source file
(suffix `_v2`).  Both register the tools `greet`, `calculator`, `getTime`,
`geocode`, `get-weather` and `generate-image`.  The `_v1` handlers report
failures by returning an error-flagged result; the `_v2` handlers throw,
which is modelled with `Except String` (the thrown message is the `error`
payload, to be wrapped by the SDK dispatcher).

Environment-dependent facilities (the host `Intl` date formatter, `fetch`
outcomes, JavaScript float rendering of template literals, the Hugging Face
inference client) are passed as explicit parameters, so every handler is a
pure function of its arguments and of the modelled environment.
JavaScript numbers are idealised as `ℚ`; their template-literal rendering
is an explicit function parameter (`render`, `f`, `pf`, `tf4`, ...), since
the claims at stake do not depend on the float-to-decimal algorithm.
-/

namespace McpServer

/-! ## Envelope and environment model -/

/-- One unit of a response payload: a text block, or a base64-carried image
block with a MIME type. -/
inductive ContentBlock where
  | text (s : String)
  | image (data : String) (mimeType : String)
deriving DecidableEq

/-- The MCP result envelope: content blocks, an optional structured mirror of
the same blocks (used by the `_v2` handlers), and an error flag. -/
structure InvocationResult where
  content : List ContentBlock
  structuredContent : Option (List ContentBlock) := none
  isError : Bool := false
deriving DecidableEq

/-- Outcome of one outbound `fetch` as the handlers observe it: a thrown
transport error (`none` models a non-`Error` throw, whose message the
handlers replace with a default), a non-ok HTTP response, or an ok response
with a parsed JSON body of shape `α`. -/
inductive FetchOutcome (α : Type) where
  | thrown (msg : Option String)
  | httpError (status : Nat) (statusText : String)
  | ok (body : α)

/-- JavaScript truthiness of a possibly-absent string (`undefined` and `""`
are falsy). -/
def jsTruthy : Option String → Bool
  | none => false
  | some s => if s = "" then false else true

/-- JavaScript truthiness of a possibly-absent number (`undefined` and `0`
are falsy). -/
def jsTruthyQ : Option ℚ → Bool
  | none => false
  | some v => if v = 0 then false else true

/-- JavaScript `a || b` for a possibly-absent string `a` and a plain string
default `b`. -/
def jsOrD (a : Option String) (b : String) : String :=
  if jsTruthy a then a.getD "" else b

/-- JavaScript `a || b` for two possibly-absent strings. -/
def jsOrStr (a b : Option String) : Option String :=
  if jsTruthy a then a else b

/-- `Array.prototype.map` with the element index as second callback
argument, as `data.map((result, index) => ...)` uses it. -/
def mapWithIndex {α β : Type} (f : Nat → α → β) : Nat → List α → List β
  | _, [] => []
  | k, a :: as => f k a :: mapWithIndex f (k + 1) as

/-- `l.map((x, i) => f i x)` starting at index 0. -/
def jsMapIdx {α β : Type} (f : Nat → α → β) (l : List α) : List β :=
  mapWithIndex f 0 l

/-! ## `greet` -/

/-- The `language` enum of the `greet` input schema. -/
inductive Language where
  | ko
  | en
deriving DecidableEq

/-- The greeting string; this expression is identical in both source
variants. -/
def greetingText (name : String) (language : Language) : String :=
  if language = Language.ko then
    "안녕하세요, " ++ name ++ "님!"
  else
    "Hey there, " ++ name ++ "! 👋 Nice to meet you!"

/-- `greet` handler of `src/index.ts`. -/
def greet_v1 (name : String) (language : Language) : InvocationResult :=
  { content := [ContentBlock.text (greetingText name language)] }

/-- `greet` handler of the second source variant, which also mirrors the
content into `structuredContent`. -/
def greet_v2 (name : String) (language : Language) : InvocationResult :=
  { content := [ContentBlock.text (greetingText name language)],
    structuredContent := some [ContentBlock.text (greetingText name language)] }

/-- Invocation of `greet` through schema validation: the zod schema declares
`language` optional with `.default('en')`, so an omitted `language` reaches
the handler as `en`. -/
def greetInvoke_v1 (name : String) (language : Option Language) : InvocationResult :=
  greet_v1 name (language.getD Language.en)

/-- Same as `greetInvoke_v1` for the second variant. -/
def greetInvoke_v2 (name : String) (language : Option Language) : InvocationResult :=
  greet_v2 name (language.getD Language.en)

/-! ## `calculator` -/

/-- The `operator` enum of the `calculator` input schema. -/
inductive Operator where
  | add
  | sub
  | mul
  | div
deriving DecidableEq

/-- The operator symbol as it appears in the input and the output text. -/
def opSymbol : Operator → String
  | Operator.add => "+"
  | Operator.sub => "-"
  | Operator.mul => "*"
  | Operator.div => "/"

/-- The standard arithmetic value `num1 op num2` (the specification side of
claim C1, stated independently of the handler's `switch`). -/
def applyOp : Operator → ℚ → ℚ → ℚ
  | Operator.add, a, b => a + b
  | Operator.sub, a, b => a - b
  | Operator.mul, a, b => a * b
  | Operator.div, a, b => a / b

/-- The output template `\x7bnum1\x7d \x7boperator\x7d \x7bnum2\x7d = \x7bresult\x7d`,
with `f` the JavaScript number-to-string rendering. -/
def calcResultText (f : ℚ → String) (num1 num2 result : ℚ) (operator : Operator) : String :=
  f num1 ++ " " ++ opSymbol operator ++ " " ++ f num2 ++ " = " ++ f result

/-- `calculator` handler of `src/index.ts`: division by zero returns an
error-flagged result. -/
def calculator_v1 (f : ℚ → String) (num1 num2 : ℚ) (operator : Operator) : InvocationResult :=
  match operator with
  | Operator.add =>
      { content := [ContentBlock.text (calcResultText f num1 num2 (num1 + num2) Operator.add)] }
  | Operator.sub =>
      { content := [ContentBlock.text (calcResultText f num1 num2 (num1 - num2) Operator.sub)] }
  | Operator.mul =>
      { content := [ContentBlock.text (calcResultText f num1 num2 (num1 * num2) Operator.mul)] }
  | Operator.div =>
      if num2 = 0 then
        { content := [ContentBlock.text "오류: 0으로 나눌 수 없습니다."], isError := true }
      else
        { content := [ContentBlock.text (calcResultText f num1 num2 (num1 / num2) Operator.div)] }

/-- Helper for the ok branch of `calculator_v2` (content plus structured
mirror). -/
def calcOk_v2 (f : ℚ → String) (num1 num2 result : ℚ) (operator : Operator) : InvocationResult :=
  { content := [ContentBlock.text (calcResultText f num1 num2 result operator)],
    structuredContent := some [ContentBlock.text (calcResultText f num1 num2 result operator)] }

/-- `calculator` handler of the second source variant: division by zero
throws `0으로 나눌 수 없습니다.`. -/
def calculator_v2 (f : ℚ → String) (num1 num2 : ℚ) (operator : Operator) :
    Except String InvocationResult :=
  match operator with
  | Operator.add => Except.ok (calcOk_v2 f num1 num2 (num1 + num2) Operator.add)
  | Operator.sub => Except.ok (calcOk_v2 f num1 num2 (num1 - num2) Operator.sub)
  | Operator.mul => Except.ok (calcOk_v2 f num1 num2 (num1 * num2) Operator.mul)
  | Operator.div =>
      if num2 = 0 then
        Except.error "0으로 나눌 수 없습니다."
      else
        Except.ok (calcOk_v2 f num1 num2 (num1 / num2) Operator.div)

/-! ## `getTime` -/

/-- `getTime` handler of `src/index.ts`.  The host formatting facility
(`new Intl.DateTimeFormat('ko-KR', \x7b timeZone: timezone, ... \x7d)` applied to
the current instant) is the parameter `fmt`; `fmt timezone = none` models the
facility throwing on an unrecognized timezone, which the handler catches and
converts into an error-flagged result naming the input. -/
def getTime_v1 (fmt : String → Option String) (timezone : String) : InvocationResult :=
  match fmt timezone with
  | some formattedTime =>
      { content := [ContentBlock.text
          ("Timezone: " ++ timezone ++ "\n현재 시간: " ++ formattedTime)] }
  | none =>
      { content := [ContentBlock.text ("유효하지 않은 timezone입니다: " ++ timezone)],
        isError := true }

/-- `getTime` handler of the second source variant: on an unrecognized
timezone the catch block throws a new error naming the input. -/
def getTime_v2 (fmt : String → Option String) (timezone : String) :
    Except String InvocationResult :=
  match fmt timezone with
  | some formattedTime =>
      Except.ok
        { content := [ContentBlock.text
            ("Timezone: " ++ timezone ++ "\n현재 시간: " ++ formattedTime)],
          structuredContent := some [ContentBlock.text
            ("Timezone: " ++ timezone ++ "\n현재 시간: " ++ formattedTime)] }
  | none =>
      Except.error ("유효하지 않은 timezone입니다: " ++ timezone
        ++ ". IANA Timezone 형식을 사용해주세요 (예: Asia/Seoul, America/New_York).")

/-! ## `geocode` -/

/-- The `address` object of one Nominatim match, with the fields the handlers
read; every field may be absent from the JSON. -/
structure NominatimAddress where
  country_code : Option String
  city : Option String
  town : Option String
  village : Option String
  state : Option String
  postcode : Option String

/-- One element of the Nominatim JSON result array, with the fields the
handlers read.  `lat` and `lon` are JSON strings; `importance` is a JSON
number. -/
structure NominatimResult where
  display_name : Option String
  lat : String
  lon : String
  importance : Option ℚ
  address : Option NominatimAddress

/-- One numbered match block of the `src/index.ts` geocode handler:
display name, latitude and longitude only (missing `display_name` is
template-rendered as `undefined`). -/
def formatMatch_v1 (index : Nat) (result : NominatimResult) : String :=
  "결과 " ++ toString (index + 1) ++ ":\n주소: " ++ result.display_name.getD "undefined"
    ++ "\n위도: " ++ result.lat ++ "\n경도: " ++ result.lon

/-- The optional city/state/postal detail entries of a `_v2` match block
(`details.push(...)` guarded by JavaScript truthiness). -/
def geocodeDetails (addr : NominatimAddress) : List String :=
  (if jsTruthy (jsOrStr addr.city (jsOrStr addr.town addr.village)) then
      ["도시: " ++ (jsOrStr addr.city (jsOrStr addr.town addr.village)).getD ""]
    else [])
  ++ (if jsTruthy addr.state then ["주/도: " ++ addr.state.getD ""] else [])
  ++ (if jsTruthy addr.postcode then ["우편번호: " ++ addr.postcode.getD ""] else [])

/-- The detail suffix a `_v2` match block appends when address details are
present and at least one detail entry was pushed. -/
def formatDetail_v2 (result : NominatimResult) : String :=
  match result.address with
  | none => ""
  | some addr =>
      let details := geocodeDetails addr
      if details.length > 0 then "\n" ++ String.intercalate ", " details else ""

/-- One numbered match block of the `_v2` geocode handler.  `pf` models
`parseFloat` composed with template-literal rendering (applied to `lat` and
`lon`); `tf4` models `parseFloat(x).toFixed(4)` on the importance score. -/
def formatMatch_v2 (pf : String → String) (tf4 : ℚ → String) (address : String)
    (index : Nat) (result : NominatimResult) : String :=
  "결과 " ++ toString (index + 1) ++ ":\n주소: " ++ jsOrD result.display_name address
    ++ "\n위도: " ++ pf result.lat ++ "\n경도: " ++ pf result.lon
    ++ "\n국가 코드: "
    ++ jsOrD ((result.address.bind NominatimAddress.country_code).map String.toUpper) "N/A"
    ++ "\n중요도: "
    ++ (if jsTruthyQ result.importance then tf4 (result.importance.getD 0) else "N/A")
    ++ formatDetail_v2 result

/-- `geocode` handler of `src/index.ts`.  `limit` and `country` only shape
the outbound request URL, which is not part of the observable result; the
response body is `none` when the parsed JSON is not an array. -/
def geocode_v1 (fetchRes : FetchOutcome (Option (List NominatimResult)))
    (address : String) (_limit : Nat) (_country : Option String) : InvocationResult :=
  match fetchRes with
  | FetchOutcome.thrown msg =>
      { content := [ContentBlock.text ("Geocoding 오류: " ++ msg.getD "알 수 없는 오류")],
        isError := true }
  | FetchOutcome.httpError status _ =>
      { content := [ContentBlock.text ("API 요청 실패: " ++ toString status)],
        isError := true }
  | FetchOutcome.ok none =>
      { content := [ContentBlock.text
          ("주소 \"" ++ address ++ "\"에 대한 검색 결과가 없습니다.")] }
  | FetchOutcome.ok (some []) =>
      { content := [ContentBlock.text
          ("주소 \"" ++ address ++ "\"에 대한 검색 결과가 없습니다.")] }
  | FetchOutcome.ok (some (r :: rs)) =>
      { content := [ContentBlock.text ("검색어: \"" ++ address ++ "\"\n\n"
          ++ String.intercalate "\n\n" (jsMapIdx formatMatch_v1 (r :: rs)))] }

/-- No-result text of the `_v2` geocode handler (restates the address and any
country filter). -/
def geocodeNoResultText_v2 (address : String) (country : Option String) : String :=
  "주소 \"" ++ address ++ "\""
    ++ (if jsTruthy country then " (국가: " ++ country.getD "" ++ ")" else "")
    ++ "에 대한 검색 결과를 찾을 수 없습니다."

/-- Header of the `_v2` geocode result text (restates the query and any
country filter). -/
def geocodeHeaderText_v2 (address : String) (country : Option String) : String :=
  "검색어: \"" ++ address ++ "\""
    ++ (if jsTruthy country then " (국가 필터: " ++ country.getD "" ++ ")" else "")
    ++ "\n\n"

/-- `geocode` handler of the second source variant: failures are thrown and
the catch block rewraps them under `Geocoding 오류:`. -/
def geocode_v2 (pf : String → String) (tf4 : ℚ → String)
    (fetchRes : FetchOutcome (Option (List NominatimResult)))
    (address : String) (_limit : Nat) (country : Option String) :
    Except String InvocationResult :=
  match fetchRes with
  | FetchOutcome.thrown msg =>
      Except.error ("Geocoding 오류: " ++ msg.getD "알 수 없는 오류가 발생했습니다.")
  | FetchOutcome.httpError status statusText =>
      Except.error ("Geocoding 오류: "
        ++ ("API 요청 실패: " ++ toString status ++ " " ++ statusText))
  | FetchOutcome.ok none =>
      Except.ok
        { content := [ContentBlock.text (geocodeNoResultText_v2 address country)],
          structuredContent := some [ContentBlock.text (geocodeNoResultText_v2 address country)] }
  | FetchOutcome.ok (some []) =>
      Except.ok
        { content := [ContentBlock.text (geocodeNoResultText_v2 address country)],
          structuredContent := some [ContentBlock.text (geocodeNoResultText_v2 address country)] }
  | FetchOutcome.ok (some (r :: rs)) =>
      let results := String.intercalate "\n\n"
        (jsMapIdx (formatMatch_v2 pf tf4 address) (r :: rs))
      let resultText := geocodeHeaderText_v2 address country ++ results
      Except.ok
        { content := [ContentBlock.text resultText],
          structuredContent := some [ContentBlock.text resultText] }

/-! ## `get-weather` and the WMO weather-code table -/

/-- The static WMO weather-code table of `getWeatherDescription` (second
source variant), verbatim. -/
def weatherCodes : List (Int × String) :=
  [(0, "☀️ 맑음"),
   (1, "🌤️ 대체로 맑음"),
   (2, "⛅ 부분적으로 흐림"),
   (3, "☁️ 흐림"),
   (45, "🌫️ 안개"),
   (48, "🌫️ 서리 안개"),
   (51, "🌦️ 약한 이슬비"),
   (53, "🌦️ 보통 이슬비"),
   (55, "🌦️ 강한 이슬비"),
   (56, "🌨️ 약한 진눈깨비"),
   (57, "🌨️ 강한 진눈깨비"),
   (61, "🌧️ 약한 비"),
   (63, "🌧️ 보통 비"),
   (65, "🌧️ 강한 비"),
   (66, "🌨️ 약한 진눈깨비"),
   (67, "🌨️ 강한 진눈깨비"),
   (71, "❄️ 약한 눈"),
   (73, "❄️ 보통 눈"),
   (75, "❄️ 강한 눈"),
   (77, "❄️ 눈알갱이"),
   (80, "🌦️ 약한 소나기"),
   (81, "🌦️ 보통 소나기"),
   (82, "🌦️ 강한 소나기"),
   (85, "🌨️ 약한 눈 소나기"),
   (86, "🌨️ 강한 눈 소나기"),
   (95, "⛈️ 천둥번개"),
   (96, "⛈️ 우박과 함께 천둥번개"),
   (99, "⛈️ 강한 우박과 함께 천둥번개")]

/-- `getWeatherDescription(code)`: table lookup with the JavaScript
`weatherCodes[code] || fallback` semantics (a falsy — i.e. empty — table
entry would also fall back, as `||` does). -/
def getWeatherDescription (code : Int) : String :=
  match weatherCodes.lookup code with
  | some desc => if desc = "" then "날씨 코드: " ++ toString code else desc
  | none => "날씨 코드: " ++ toString code

/-- The `current_weather` object of the Open-Meteo response, with the fields
the handlers read. -/
structure CurrentWeather where
  temperature : ℚ
  wind_speed : ℚ
  wind_direction : ℚ
  weather_code : Int
  time : String

/-- The `daily` aggregate of the Open-Meteo response; each field may be
absent, and the per-day arrays are indexed with `?.[i]` (out-of-range access
gives `undefined`, i.e. `none`). -/
structure DailyData where
  time : Option (List String)
  temperature_2m_max : Option (List ℚ)
  temperature_2m_min : Option (List ℚ)
  precipitation_sum : Option (List ℚ)
  weather_code : Option (List Int)
  wind_speed_10m_max : Option (List ℚ)

/-- The `hourly` aggregate of the Open-Meteo response. -/
structure HourlyData where
  time : Option (List String)
  temperature_2m : Option (List ℚ)
  relative_humidity_2m : Option (List ℚ)
  precipitation : Option (List ℚ)
  wind_speed_10m : Option (List ℚ)
  wind_direction_10m : Option (List ℚ)
  weather_code : Option (List Int)

/-- The parsed Open-Meteo JSON body, with the fields the handlers read.
`error`/`reason` form the API-reported error payload the `_v2` handler
checks. -/
structure WeatherData where
  timezone : Option String
  elevation : Option ℚ
  current_weather : Option CurrentWeather
  daily : Option DailyData
  hourly : Option HourlyData
  error : Bool
  reason : Option String

/-- Template-literal rendering of a possibly-`undefined` number (`undefined`
prints as the string `undefined`). -/
def renderOptJs (render : ℚ → String) : Option ℚ → String
  | some q => render q
  | none => "undefined"

/-- One line of the `src/index.ts` daily loop:
`\x7bdate\x7d: \x7bminTemp\x7d°C ~ \x7bmaxTemp\x7d°C\n`. -/
def dailyLine_v1 (render : ℚ → String) (daily : DailyData) (times : List String)
    (i : Nat) : String :=
  times.getD i "" ++ ": "
    ++ renderOptJs render (daily.temperature_2m_min.bind fun a => a.get? i) ++ "°C ~ "
    ++ renderOptJs render (daily.temperature_2m_max.bind fun a => a.get? i) ++ "°C\n"

/-- The `src/index.ts` daily loop:
`for (let i = 0; i < Math.min(data.daily.time.length, forecast_days); i++)`. -/
def dailyLines_v1 (render : ℚ → String) (daily : DailyData) (times : List String)
    (forecast_days : Nat) : List String :=
  (List.range (min times.length forecast_days)).map (dailyLine_v1 render daily times)

/-- `get-weather` handler of `src/index.ts`. -/
def getWeather_v1 (render : ℚ → String) (fetchRes : FetchOutcome WeatherData)
    (latitude longitude : ℚ) (forecast_days : Nat) : InvocationResult :=
  match fetchRes with
  | FetchOutcome.thrown msg =>
      { content := [ContentBlock.text ("날씨 조회 오류: " ++ msg.getD "알 수 없는 오류")],
        isError := true }
  | FetchOutcome.httpError status _ =>
      { content := [ContentBlock.text ("API 요청 실패: " ++ toString status)],
        isError := true }
  | FetchOutcome.ok data =>
      let locationText :=
        "📍 위치: 위도 " ++ render latitude ++ ", 경도 " ++ render longitude ++ "\n\n"
      let currentText :=
        match data.current_weather with
        | some current =>
            "🌤️ 현재 날씨\n"
              ++ "온도: " ++ render current.temperature ++ "°C\n"
              ++ "풍속: " ++ render current.wind_speed ++ " km/h\n\n"
        | none => ""
      let dailyText :=
        match data.daily with
        | some daily =>
            match daily.time with
            | some times =>
                "📅 " ++ toString forecast_days ++ "일 예보\n"
                  ++ String.join (dailyLines_v1 render daily times forecast_days)
            | none => ""
        | none => ""
      { content := [ContentBlock.text (locationText ++ currentText ++ dailyText)] }

/-- The 40-character section bar of the `_v2` weather report. -/
def sectionBar : String :=
  "━━━━━━━━━━━━━━━━━━━━━━━━━━━━━━━━━━━━━━━━\n"

/-- One entry of the `_v2` daily loop: date line plus the conditionally
appended temperature / weather / precipitation / wind lines and a blank
line.  `dateFmt` models `new Date(x).toLocaleDateString('ko-KR', ...)`. -/
def dailyLine_v2 (render : ℚ → String) (dateFmt : String → String) (daily : DailyData)
    (times : List String) (i : Nat) : String :=
  let dateStr := dateFmt (times.getD i "")
  let maxTemp := daily.temperature_2m_max.bind fun a => a.get? i
  let minTemp := daily.temperature_2m_min.bind fun a => a.get? i
  let precip := daily.precipitation_sum.bind fun a => a.get? i
  let weatherCode := daily.weather_code.bind fun a => a.get? i
  let windSpeed := daily.wind_speed_10m_max.bind fun a => a.get? i
  let weatherDesc :=
    match weatherCode with
    | some c => getWeatherDescription c
    | none => "N/A"
  dateStr ++ "\n"
    ++ (match minTemp, maxTemp with
        | some mn, some mx => "  🌡️  기온: " ++ render mn ++ "°C ~ " ++ render mx ++ "°C\n"
        | _, _ => "")
    ++ (match weatherCode with
        | some _ => "  ☁️  날씨: " ++ weatherDesc ++ "\n"
        | none => "")
    ++ (match precip with
        | some p => "  🌧️  강수량: " ++ render p ++ "mm\n"
        | none => "")
    ++ (match windSpeed with
        | some w => "  💨 최대 풍속: " ++ render w ++ " km/h\n"
        | none => "")
    ++ "\n"

/-- The `_v2` daily loop:
`for (let i = 0; i < Math.min(days, forecast_days); i++)` with
`days = data.daily.time.length`. -/
def dailyLines_v2 (render : ℚ → String) (dateFmt : String → String) (daily : DailyData)
    (times : List String) (forecast_days : Nat) : List String :=
  (List.range (min times.length forecast_days)).map (dailyLine_v2 render dateFmt daily times)

/-- One entry of the `_v2` hourly loop.  `timeFmt` models
`new Date(x).toLocaleString('ko-KR', ...)`. -/
def hourlyLine_v2 (render : ℚ → String) (timeFmt : String → String) (hourly : HourlyData)
    (times : List String) (i : Nat) : String :=
  let temp := hourly.temperature_2m.bind fun a => a.get? i
  let humidity := hourly.relative_humidity_2m.bind fun a => a.get? i
  let precip := hourly.precipitation.bind fun a => a.get? i
  let windSpeed := hourly.wind_speed_10m.bind fun a => a.get? i
  let windDir := hourly.wind_direction_10m.bind fun a => a.get? i
  let weatherCode := hourly.weather_code.bind fun a => a.get? i
  timeFmt (times.getD i "") ++ "\n"
    ++ (match temp with
        | some t => "  🌡️  " ++ render t ++ "°C"
        | none => "")
    ++ (match humidity with
        | some h => " | 💧 습도: " ++ render h ++ "%"
        | none => "")
    ++ (match precip with
        | some p => if p > 0 then " | 🌧️  강수: " ++ render p ++ "mm" else ""
        | none => "")
    ++ (match windSpeed with
        | some w => " | 💨 풍속: " ++ render w ++ " km/h"
        | none => "")
    ++ (match windDir with
        | some d => " (" ++ render d ++ "°)"
        | none => "")
    ++ (match weatherCode with
        | some c => " | " ++ getWeatherDescription c
        | none => "")
    ++ "\n"

/-- The `_v2` hourly loop: `hourlyCount = Math.min(24, data.hourly.time.length)`. -/
def hourlyLines_v2 (render : ℚ → String) (timeFmt : String → String) (hourly : HourlyData)
    (times : List String) : List String :=
  (List.range (min 24 times.length)).map (hourlyLine_v2 render timeFmt hourly times)

/-- `get-weather` handler of the second source variant.  The `timezone`
input only shapes the outbound request URL, hence the unused binder. -/
def getWeather_v2 (render : ℚ → String) (dateFmt timeFmt : String → String)
    (fetchRes : FetchOutcome WeatherData) (latitude longitude : ℚ)
    (forecast_days : Nat) (_timezone : Option String) : Except String InvocationResult :=
  match fetchRes with
  | FetchOutcome.thrown msg =>
      Except.error ("날씨 정보 조회 오류: " ++ msg.getD "알 수 없는 오류가 발생했습니다.")
  | FetchOutcome.httpError status statusText =>
      Except.error ("날씨 정보 조회 오류: "
        ++ ("API 요청 실패: " ++ toString status ++ " " ++ statusText))
  | FetchOutcome.ok data =>
      if data.error then
        Except.error ("날씨 정보 조회 오류: "
          ++ ("API 오류: " ++ jsOrD data.reason "알 수 없는 오류"))
      else
        let headText :=
          "📍 위치: 위도 " ++ render latitude ++ ", 경도 " ++ render longitude ++ "\n"
            ++ (if jsTruthy data.timezone then "🌍 시간대: " ++ data.timezone.getD "" ++ "\n"
                else "")
            ++ (match data.elevation with
                | some e => "⛰️  고도: " ++ render e ++ "m\n"
                | none => "")
            ++ "\n"
        let currentText :=
          match data.current_weather with
          | some current =>
              "🌤️  현재 날씨\n" ++ sectionBar
                ++ "온도: " ++ render current.temperature ++ "°C\n"
                ++ "날씨: " ++ getWeatherDescription current.weather_code
                ++ " (코드: " ++ toString current.weather_code ++ ")\n"
                ++ "풍속: " ++ render current.wind_speed ++ " km/h\n"
                ++ "풍향: " ++ render current.wind_direction ++ "°\n"
                ++ "시간: " ++ current.time ++ "\n"
                ++ "\n"
          | none => ""
        let dailyText :=
          match data.daily with
          | some daily =>
              match daily.time with
              | some times =>
                  "📅 " ++ toString forecast_days ++ "일 일별 예보\n" ++ sectionBar
                    ++ String.join (dailyLines_v2 render dateFmt daily times forecast_days)
              | none => ""
          | none => ""
        let hourlyText :=
          match data.hourly with
          | some hourly =>
              match hourly.time with
              | some times =>
                  "⏰ 다음 24시간 시간별 예보\n" ++ sectionBar
                    ++ String.join (hourlyLines_v2 render timeFmt hourly times)
              | none => ""
          | none => ""
        let resultText := headText ++ currentText ++ dailyText ++ hourlyText
        Except.ok
          { content := [ContentBlock.text resultText],
            structuredContent := some [ContentBlock.text resultText] }

/-! ## `generate-image` -/

/-- Outcome of the `hfClient.textToImage` call followed by the blob-to-base64
conversion: a base64 payload, or a thrown failure (`none` models a non-`Error`
throw). -/
inductive ImageOutcome where
  | ok (base64Data : String)
  | err (msg : Option String)

/-- `generate-image` handler of `src/index.ts`: it reads `process.env.HF_TOKEN`
(the `hfToken` parameter; `!hfToken` is JavaScript truthiness, so a missing or
empty value fails) and returns a missing-credential error before constructing
the inference client.  The first component of the result records whether the
outbound inference call was made. -/
def generateImage_v1 (hfToken : Option String) (upstream : String → ImageOutcome)
    (prompt : String) : Bool × InvocationResult :=
  if jsTruthy hfToken then
    match upstream prompt with
    | ImageOutcome.ok base64Data =>
        (true, { content := [ContentBlock.image base64Data "image/png"] })
    | ImageOutcome.err msg =>
        (true,
         { content := [ContentBlock.text ("이미지 생성 오류: " ++ msg.getD "알 수 없는 오류")],
           isError := true })
  else
    (false,
     { content := [ContentBlock.text "HF_TOKEN 환경 변수가 설정되지 않았습니다."],
       isError := true })

/-- `generate-image` handler of the second source variant: the client is
constructed at server start from `config?.hfToken || process.env.HF_TOKEN`
(the `token` parameter) with no presence check, the call is always attempted,
and any failure is rethrown wrapped with a credential hint.  The first
component again records whether the outbound inference call was made. -/
def generateImage_v2 (token : Option String) (upstream : Option String → String → ImageOutcome)
    (prompt : String) : Bool × Except String InvocationResult :=
  match upstream token prompt with
  | ImageOutcome.ok base64Data =>
      (true, Except.ok { content := [ContentBlock.image base64Data "image/png"] })
  | ImageOutcome.err msg =>
      (true, Except.error ("이미지 생성 오류: " ++ msg.getD "알 수 없는 오류가 발생했습니다."
          ++ ". HF_TOKEN 환경 변수가 설정되어 있는지 확인해주세요."))

/-! ## Dispatchers -/

/-- A validated invocation request against the `src/index.ts` tool set
(arguments after zod validation; `language` still optional because its
default is modelled at dispatch). -/
inductive ToolRequest where
  | greet (name : String) (language : Option Language)
  | calculator (num1 num2 : ℚ) (operator : Operator)
  | getTime (timezone : String)
  | geocode (address : String) (limit : Nat) (country : Option String)
  | getWeather (latitude longitude : ℚ) (forecast_days : Nat)
  | generateImage (prompt : String)

/-- A validated invocation request against the `_v2` tool set (whose
`get-weather` also takes an optional timezone). -/
inductive ToolRequest2 where
  | greet (name : String) (language : Option Language)
  | calculator (num1 num2 : ℚ) (operator : Operator)
  | getTime (timezone : String)
  | geocode (address : String) (limit : Nat) (country : Option String)
  | getWeather (latitude longitude : ℚ) (forecast_days : Nat) (timezone : Option String)
  | generateImage (prompt : String)

/-- The environment a `src/index.ts` invocation observes: number rendering,
the `Intl` formatter, the two fetch outcomes, the `HF_TOKEN` environment
variable and the inference call. -/
structure Env where
  render : ℚ → String
  fmt : String → Option String
  geoFetch : FetchOutcome (Option (List NominatimResult))
  weatherFetch : FetchOutcome WeatherData
  hfToken : Option String
  imageUpstream : String → ImageOutcome

/-- The environment a `_v2` invocation observes.  `token` is the value of
`config?.hfToken || process.env.HF_TOKEN` the shared client was constructed
with. -/
structure Env2 where
  render : ℚ → String
  fmt : String → Option String
  dateFmt : String → String
  timeFmt : String → String
  pf : String → String
  tf4 : ℚ → String
  geoFetch : FetchOutcome (Option (List NominatimResult))
  weatherFetch : FetchOutcome WeatherData
  token : Option String
  imageUpstream : Option String → String → ImageOutcome

/-- Dispatch of one validated request to the `src/index.ts` handlers. -/
def invoke_v1 (env : Env) : ToolRequest → InvocationResult
  | ToolRequest.greet name language => greetInvoke_v1 name language
  | ToolRequest.calculator num1 num2 operator => calculator_v1 env.render num1 num2 operator
  | ToolRequest.getTime timezone => getTime_v1 env.fmt timezone
  | ToolRequest.geocode address limit country => geocode_v1 env.geoFetch address limit country
  | ToolRequest.getWeather latitude longitude forecast_days =>
      getWeather_v1 env.render env.weatherFetch latitude longitude forecast_days
  | ToolRequest.generateImage prompt =>
      (generateImage_v1 env.hfToken env.imageUpstream prompt).2

/-- Dispatch of one validated request to the `_v2` handlers. -/
def invoke_v2 (env : Env2) : ToolRequest2 → Except String InvocationResult
  | ToolRequest2.greet name language => Except.ok (greetInvoke_v2 name language)
  | ToolRequest2.calculator num1 num2 operator => calculator_v2 env.render num1 num2 operator
  | ToolRequest2.getTime timezone => getTime_v2 env.fmt timezone
  | ToolRequest2.geocode address limit country =>
      geocode_v2 env.pf env.tf4 env.geoFetch address limit country
  | ToolRequest2.getWeather latitude longitude forecast_days timezone =>
      getWeather_v2 env.render env.dateFmt env.timeFmt env.weatherFetch
        latitude longitude forecast_days timezone
  | ToolRequest2.generateImage prompt =>
      (generateImage_v2 env.token env.imageUpstream prompt).2

/-- Whether a request targets the `generate-image` tool. -/
def isImageReq : ToolRequest → Bool
  | ToolRequest.generateImage _ => true
  | _ => false

/-- Whether a `_v2` request targets the `generate-image` tool. -/
def isImageReq2 : ToolRequest2 → Bool
  | ToolRequest2.generateImage _ => true
  | _ => false

/-- The returned envelope carries at least one content block. -/
def contentNonempty (r : InvocationResult) : Bool :=
  !r.content.isEmpty

/-- Every non-thrown outcome carries at least one content block (a thrown
outcome is the out-of-band signal the SDK dispatcher wraps). -/
def okContentNonempty : Except String InvocationResult → Bool
  | Except.ok r => contentNonempty r
  | Except.error _ => true

/-- A concrete Nominatim match carrying a display name, a country code, an
importance score and address details. -/
def cexMatch : NominatimResult :=
  { display_name := some "Seoul, South Korea",
    lat := "37.55",
    lon := "126.99",
    importance := some (7 / 10),
    address := some
      { country_code := some "kr", city := some "Seoul", town := none, village := none,
        state := none, postcode := some "04524" } }

/-- A concrete `src/index.ts` environment used to instantiate dispatcher
statements. -/
def sampleEnv : Env :=
  { render := fun _ => "0",
    fmt := fun _ => none,
    geoFetch := FetchOutcome.ok none,
    weatherFetch := FetchOutcome.httpError 500 "Internal Server Error",
    hfToken := none,
    imageUpstream := fun _ => ImageOutcome.err none }

/-- A concrete `_v2` environment used to instantiate dispatcher statements. -/
def sampleEnv2 : Env2 :=
  { render := fun _ => "0",
    fmt := fun _ => none,
    dateFmt := fun s => s,
    timeFmt := fun s => s,
    pf := fun s => s,
    tf4 := fun _ => "0.0000",
    geoFetch := FetchOutcome.ok none,
    weatherFetch := FetchOutcome.httpError 500 "Internal Server Error",
    token := none,
    imageUpstream := fun _ _ => ImageOutcome.err none }

/-! ## Helper lemmas -/

theorem length_mapWithIndex {α β : Type} (f : Nat → α → β) :
    ∀ (k : Nat) (l : List α), (mapWithIndex f k l).length = l.length := by
  intro k l
  induction l generalizing k with
  | nil => rfl
  | cons a as ih => simp [mapWithIndex, ih]

theorem getElem?_mapWithIndex {α β : Type} (f : Nat → α → β) :
    ∀ (k i : Nat) (l : List α),
      (mapWithIndex f k l)[i]? = (l[i]?).map (f (k + i)) := by
  intro k i l
  induction l generalizing k i with
  | nil => simp [mapWithIndex]
  | cons a as ih =>
    cases i with
    | zero => simp [mapWithIndex]
    | succ n =>
      simp only [mapWithIndex, List.getElem?_cons_succ, ih (k + 1) n]
      have h : k + 1 + n = k + (n + 1) := by omega
      rw [h]

theorem getElem?_jsMapIdx {α β : Type} (f : Nat → α → β) (l : List α) (i : Nat) :
    (jsMapIdx f l)[i]? = (l[i]?).map (f i) := by
  have h := getElem?_mapWithIndex f 0 i l
  simpa [jsMapIdx] using h

theorem length_jsMapIdx {α β : Type} (f : Nat → α → β) (l : List α) :
    (jsMapIdx f l).length = l.length :=
  length_mapWithIndex f 0 l

theorem lookup_eq_none_of_not_mem_keys {α β : Type} [BEq α] [LawfulBEq α]
    (l : List (α × β)) (a : α) (h : a ∉ l.map Prod.fst) : l.lookup a = none := by
  induction l with
  | nil => rfl
  | cons p ps ih =>
    have h1 : a ≠ p.1 := by
      intro he
      exact h (by simp [he])
    have h2 : a ∉ ps.map Prod.fst := by
      intro hm
      exact h (by simp [hm])
    obtain ⟨k, v⟩ := p
    simp only [List.lookup]
    rw [show (a == k) = false from beq_eq_false_iff_ne.mpr h1]
    exact ih h2

theorem weatherFallback_ne_empty (code : Int) : "날씨 코드: " ++ toString code ≠ "" := by
  intro h
  have hlen := congrArg String.length h
  rw [String.length_append] at hlen
  have h7 : ("날씨 코드: " : String).length = 7 := rfl
  have h0 : ("" : String).length = 0 := rfl
  omega

theorem calculator_v1_nonempty (f : ℚ → String) (num1 num2 : ℚ) (operator : Operator) :
    contentNonempty (calculator_v1 f num1 num2 operator) = true := by
  cases operator with
  | add => rfl
  | sub => rfl
  | mul => rfl
  | div =>
    by_cases h : num2 = 0
    · simp [calculator_v1, h, contentNonempty]
    · simp [calculator_v1, h, contentNonempty]

theorem calculator_v2_nonempty (f : ℚ → String) (num1 num2 : ℚ) (operator : Operator) :
    okContentNonempty (calculator_v2 f num1 num2 operator) = true := by
  cases operator with
  | add => rfl
  | sub => rfl
  | mul => rfl
  | div =>
    by_cases h : num2 = 0
    · simp [calculator_v2, h, okContentNonempty]
    · simp [calculator_v2, h, okContentNonempty, contentNonempty, calcOk_v2]

theorem getTime_v1_nonempty (fmt : String → Option String) (timezone : String) :
    contentNonempty (getTime_v1 fmt timezone) = true := by
  cases h : fmt timezone <;> simp [getTime_v1, h, contentNonempty]

theorem getTime_v2_nonempty (fmt : String → Option String) (timezone : String) :
    okContentNonempty (getTime_v2 fmt timezone) = true := by
  cases h : fmt timezone <;> simp [getTime_v2, h, okContentNonempty, contentNonempty]

theorem geocode_v1_nonempty (fetchRes : FetchOutcome (Option (List NominatimResult)))
    (address : String) (limit : Nat) (country : Option String) :
    contentNonempty (geocode_v1 fetchRes address limit country) = true := by
  cases fetchRes with
  | thrown msg => rfl
  | httpError status statusText => rfl
  | ok body =>
    cases body with
    | none => rfl
    | some l =>
      cases l with
      | nil => rfl
      | cons r rs => rfl

theorem geocode_v2_nonempty (pf : String → String) (tf4 : ℚ → String)
    (fetchRes : FetchOutcome (Option (List NominatimResult)))
    (address : String) (limit : Nat) (country : Option String) :
    okContentNonempty (geocode_v2 pf tf4 fetchRes address limit country) = true := by
  cases fetchRes with
  | thrown msg => rfl
  | httpError status statusText => rfl
  | ok body =>
    cases body with
    | none => rfl
    | some l =>
      cases l with
      | nil => rfl
      | cons r rs => rfl

theorem getWeather_v1_nonempty (render : ℚ → String) (fetchRes : FetchOutcome WeatherData)
    (latitude longitude : ℚ) (forecast_days : Nat) :
    contentNonempty (getWeather_v1 render fetchRes latitude longitude forecast_days) = true := by
  cases fetchRes with
  | thrown msg => rfl
  | httpError status statusText => rfl
  | ok data => rfl

theorem getWeather_v2_nonempty (render : ℚ → String) (dateFmt timeFmt : String → String)
    (fetchRes : FetchOutcome WeatherData) (latitude longitude : ℚ)
    (forecast_days : Nat) (timezone : Option String) :
    okContentNonempty
      (getWeather_v2 render dateFmt timeFmt fetchRes latitude longitude forecast_days timezone)
      = true := by
  cases fetchRes with
  | thrown msg => rfl
  | httpError status statusText => rfl
  | ok data =>
    by_cases h : data.error = true
    · simp [getWeather_v2, h, okContentNonempty]
    · simp [getWeather_v2, h, okContentNonempty, contentNonempty]

theorem generateImage_v1_nonempty (hfToken : Option String)
    (upstream : String → ImageOutcome) (prompt : String) :
    contentNonempty (generateImage_v1 hfToken upstream prompt).2 = true := by
  unfold generateImage_v1
  split
  · cases upstream prompt <;> rfl
  · rfl

theorem generateImage_v2_nonempty (token : Option String)
    (upstream : Option String → String → ImageOutcome) (prompt : String) :
    okContentNonempty (generateImage_v2 token upstream prompt).2 = true := by
  unfold generateImage_v2
  cases upstream token prompt <;> rfl

/-! ## Claim theorems -/

/-- C1: for every input with an operator in the schema enum and `num2 ≠ 0`
when the operator is `/`, both calculator handlers return a non-error result
whose text is exactly `\x7bnum1\x7d \x7boperator\x7d \x7bnum2\x7d = \x7bresult\x7d`
with `result` the standard arithmetic value `applyOp operator num1 num2`; and
for every `num1`, division by zero yields an error condition (an error-flagged
result in `_v1`, a thrown error in `_v2`), never a numeric result. -/
theorem calculator_meets_spec :
    (∀ (f : ℚ → String) (num1 num2 : ℚ) (operator : Operator),
        (operator = Operator.div → num2 ≠ 0) →
        calculator_v1 f num1 num2 operator =
          { content := [ContentBlock.text
              (f num1 ++ " " ++ opSymbol operator ++ " " ++ f num2 ++ " = "
                ++ f (applyOp operator num1 num2))],
            structuredContent := none, isError := false }
        ∧ calculator_v2 f num1 num2 operator =
            Except.ok
              { content := [ContentBlock.text
                  (f num1 ++ " " ++ opSymbol operator ++ " " ++ f num2 ++ " = "
                    ++ f (applyOp operator num1 num2))],
                structuredContent := some [ContentBlock.text
                  (f num1 ++ " " ++ opSymbol operator ++ " " ++ f num2 ++ " = "
                    ++ f (applyOp operator num1 num2))],
                isError := false })
    ∧ (∀ (f : ℚ → String) (num1 : ℚ),
        calculator_v1 f num1 0 Operator.div =
          { content := [ContentBlock.text "오류: 0으로 나눌 수 없습니다."],
            structuredContent := none, isError := true }
        ∧ calculator_v2 f num1 0 Operator.div = Except.error "0으로 나눌 수 없습니다.") := by
  constructor
  · intro f num1 num2 operator h
    cases operator with
    | add => exact ⟨rfl, rfl⟩
    | sub => exact ⟨rfl, rfl⟩
    | mul => exact ⟨rfl, rfl⟩
    | div =>
      have hne : num2 ≠ 0 := h rfl
      constructor
      · simp only [calculator_v1, if_neg hne]
        rfl
      · simp only [calculator_v2, if_neg hne]
        rfl
  · intro f num1
    constructor
    · simp [calculator_v1]
    · simp [calculator_v2]

/-- Witness for C1 at concrete inputs. -/
theorem calculator_meets_spec_witness :
    calculator_v1 (fun _ => "N") 10 4 Operator.add =
      { content := [ContentBlock.text "N + N = N"],
        structuredContent := none, isError := false }
    ∧ calculator_v2 (fun _ => "N") 10 0 Operator.div = Except.error "0으로 나눌 수 없습니다." := by
  constructor
  · have h := (calculator_meets_spec.1 (fun _ => "N") 10 4 Operator.add
      (fun hc => nomatch hc)).1
    exact h.trans (by decide)
  · exact (calculator_meets_spec.2 (fun _ => "N") 10).2

/-- C2: for every tool invocation against either variant and every modelled
environment (hence every success and every error kind), the returned
envelope carries at least one content block; `_v2` failures are signalled
out-of-band as thrown errors for the SDK dispatcher to wrap, never as empty
results. -/
theorem invocation_content_nonempty :
    (∀ (env : Env) (req : ToolRequest), contentNonempty (invoke_v1 env req) = true)
    ∧ (∀ (env : Env2) (req : ToolRequest2), okContentNonempty (invoke_v2 env req) = true) := by
  constructor
  · intro env req
    cases req with
    | greet name language => rfl
    | calculator num1 num2 operator => exact calculator_v1_nonempty env.render num1 num2 operator
    | getTime timezone => exact getTime_v1_nonempty env.fmt timezone
    | geocode address limit country =>
      exact geocode_v1_nonempty env.geoFetch address limit country
    | getWeather latitude longitude forecast_days =>
      exact getWeather_v1_nonempty env.render env.weatherFetch latitude longitude forecast_days
    | generateImage prompt =>
      exact generateImage_v1_nonempty env.hfToken env.imageUpstream prompt
  · intro env req
    cases req with
    | greet name language => rfl
    | calculator num1 num2 operator => exact calculator_v2_nonempty env.render num1 num2 operator
    | getTime timezone => exact getTime_v2_nonempty env.fmt timezone
    | geocode address limit country =>
      exact geocode_v2_nonempty env.pf env.tf4 env.geoFetch address limit country
    | getWeather latitude longitude forecast_days timezone =>
      exact getWeather_v2_nonempty env.render env.dateFmt env.timeFmt env.weatherFetch
        latitude longitude forecast_days timezone
    | generateImage prompt =>
      exact generateImage_v2_nonempty env.token env.imageUpstream prompt

/-- C3: for every timezone string the formatting facility does not recognize,
both `getTime` handlers yield a distinguished invalid-timezone error condition
whose text names the offending input (the text decomposes around the raw
timezone string); no time text is returned. -/
theorem getTime_invalid_timezone :
    ∀ (fmt : String → Option String) (timezone : String),
      fmt timezone = none →
      getTime_v1 fmt timezone =
        { content := [ContentBlock.text ("유효하지 않은 timezone입니다: " ++ timezone)],
          structuredContent := none, isError := true }
      ∧ (∃ pre post, "유효하지 않은 timezone입니다: " ++ timezone = pre ++ timezone ++ post)
      ∧ ∃ msg, getTime_v2 fmt timezone = Except.error msg
          ∧ ∃ pre post, msg = pre ++ timezone ++ post := by
  intro fmt timezone h
  refine ⟨?_, ⟨"유효하지 않은 timezone입니다: ", "", by simp⟩, ?_⟩
  · simp only [getTime_v1, h]
  · refine ⟨"유효하지 않은 timezone입니다: " ++ timezone
      ++ ". IANA Timezone 형식을 사용해주세요 (예: Asia/Seoul, America/New_York).", ?_,
      "유효하지 않은 timezone입니다: ",
      ". IANA Timezone 형식을 사용해주세요 (예: Asia/Seoul, America/New_York).", rfl⟩
    simp only [getTime_v2, h]

/-- Witness for C3 at a concrete unrecognized timezone. -/
theorem getTime_invalid_timezone_witness :
    getTime_v1 (fun _ => none) "Mars/Olympus" =
      { content := [ContentBlock.text "유효하지 않은 timezone입니다: Mars/Olympus"],
        structuredContent := none, isError := true } := by
  have h := (getTime_invalid_timezone (fun _ => none) "Mars/Olympus" rfl).1
  exact h.trans (by decide)

/-- C4: for every address, when the upstream responds with success status and
an empty array or a non-list body, both geocode handlers return a non-error
result (no error flag, nothing thrown) whose text states that no matches were
found and references the queried address (the text decomposes around the raw
address string). -/
theorem geocode_no_results :
    ∀ (pf : String → String) (tf4 : ℚ → String) (address : String) (limit : Nat)
      (country : Option String) (body : Option (List NominatimResult)),
      body = none ∨ body = some [] →
      geocode_v1 (FetchOutcome.ok body) address limit country =
        { content := [ContentBlock.text
            ("주소 \"" ++ address ++ "\"에 대한 검색 결과가 없습니다.")],
          structuredContent := none, isError := false }
      ∧ (∃ pre post,
          "주소 \"" ++ address ++ "\"에 대한 검색 결과가 없습니다." = pre ++ address ++ post)
      ∧ geocode_v2 pf tf4 (FetchOutcome.ok body) address limit country =
          Except.ok
            { content := [ContentBlock.text (geocodeNoResultText_v2 address country)],
              structuredContent :=
                some [ContentBlock.text (geocodeNoResultText_v2 address country)],
              isError := false }
      ∧ ∃ pre post, geocodeNoResultText_v2 address country = pre ++ address ++ post := by
  intro pf tf4 address limit country body h
  have hdecomp : ∃ pre post,
      "주소 \"" ++ address ++ "\"에 대한 검색 결과가 없습니다." = pre ++ address ++ post :=
    ⟨"주소 \"", "\"에 대한 검색 결과가 없습니다.", rfl⟩
  have hdecomp2 : ∃ pre post, geocodeNoResultText_v2 address country = pre ++ address ++ post :=
    ⟨"주소 \"", "\""
      ++ (if jsTruthy country then " (국가: " ++ country.getD "" ++ ")" else "")
      ++ "에 대한 검색 결과를 찾을 수 없습니다.",
      by simp [geocodeNoResultText_v2, String.append_assoc]⟩
  rcases h with h | h <;> subst h
  · exact ⟨rfl, hdecomp, rfl, hdecomp2⟩
  · exact ⟨rfl, hdecomp, rfl, hdecomp2⟩

/-- Witness for C4 at a concrete address and an empty upstream array. -/
theorem geocode_no_results_witness :
    geocode_v1 (FetchOutcome.ok (some [])) "no-such-place-xyz123" 1 none =
      { content := [ContentBlock.text
          "주소 \"no-such-place-xyz123\"에 대한 검색 결과가 없습니다."],
        structuredContent := none, isError := false } := by
  have h := (geocode_no_results (fun s => s) (fun _ => "") "no-such-place-xyz123" 1 none
    (some []) (Or.inr rfl)).1
  exact h.trans (by decide)

/-- C5: for every `forecast_days ∈ [1,16]` and every upstream daily payload
whose `time` array has `d` entries, the daily-forecast section of both
weather handlers enumerates exactly `min forecast_days d` entries, the `i`-th
entry being built from day `i` in upstream order (it opens with day `i`'s
date). -/
theorem weather_daily_count :
    ∀ (render : ℚ → String) (dateFmt : String → String) (daily : DailyData)
      (times : List String) (forecast_days : Nat),
      1 ≤ forecast_days → forecast_days ≤ 16 →
      (dailyLines_v1 render daily times forecast_days).length
          = min forecast_days times.length
      ∧ (dailyLines_v2 render dateFmt daily times forecast_days).length
          = min forecast_days times.length
      ∧ (∀ i, i < min forecast_days times.length →
          (dailyLines_v1 render daily times forecast_days)[i]?
            = some (dailyLine_v1 render daily times i)
          ∧ ∃ rest, dailyLine_v1 render daily times i = times.getD i "" ++ ": " ++ rest)
      ∧ (∀ i, i < min forecast_days times.length →
          (dailyLines_v2 render dateFmt daily times forecast_days)[i]?
            = some (dailyLine_v2 render dateFmt daily times i)
          ∧ ∃ rest, dailyLine_v2 render dateFmt daily times i
              = dateFmt (times.getD i "") ++ "\n" ++ rest) := by
  intro render dateFmt daily times forecast_days h1 h16
  have hmin : min times.length forecast_days = min forecast_days times.length :=
    Nat.min_comm _ _
  refine ⟨?_, ?_, ?_, ?_⟩
  · simp [dailyLines_v1, hmin]
  · simp [dailyLines_v2, hmin]
  · intro i hi
    have hi2 : i < min times.length forecast_days := hmin ▸ hi
    constructor
    · rw [dailyLines_v1, List.getElem?_map, List.getElem?_range hi2]
      rfl
    · exact ⟨renderOptJs render (daily.temperature_2m_min.bind fun a => a.get? i) ++ "°C ~ "
        ++ renderOptJs render (daily.temperature_2m_max.bind fun a => a.get? i) ++ "°C\n",
        by simp [dailyLine_v1, String.append_assoc]⟩
  · intro i hi
    have hi2 : i < min times.length forecast_days := hmin ▸ hi
    constructor
    · rw [dailyLines_v2, List.getElem?_map, List.getElem?_range hi2]
      rfl
    · refine ⟨?_, ?_⟩
      · exact (match daily.temperature_2m_min.bind fun a => a.get? i,
            daily.temperature_2m_max.bind fun a => a.get? i with
          | some mn, some mx => "  🌡️  기온: " ++ render mn ++ "°C ~ " ++ render mx ++ "°C\n"
          | _, _ => "")
          ++ (match daily.weather_code.bind fun a => a.get? i with
              | some _ => "  ☁️  날씨: "
                  ++ (match daily.weather_code.bind fun a => a.get? i with
                      | some c => getWeatherDescription c
                      | none => "N/A") ++ "\n"
              | none => "")
          ++ (match daily.precipitation_sum.bind fun a => a.get? i with
              | some p => "  🌧️  강수량: " ++ render p ++ "mm\n"
              | none => "")
          ++ (match daily.wind_speed_10m_max.bind fun a => a.get? i with
              | some w => "  💨 최대 풍속: " ++ render w ++ " km/h\n"
              | none => "")
          ++ "\n"
      · simp [dailyLine_v2, String.append_assoc]

/-- Witness for C5 at a concrete payload: three upstream days, seven
requested. -/
theorem weather_daily_count_witness :
    (dailyLines_v1 (fun _ => "0")
        { time := some ["2026-10-12", "2026-10-13", "2026-10-14"],
          temperature_2m_max := some [10, 11, 12],
          temperature_2m_min := some [1, 2, 3],
          precipitation_sum := none, weather_code := none, wind_speed_10m_max := none }
        ["2026-10-12", "2026-10-13", "2026-10-14"] 7).length = min 7 3 := by
  have h := (weather_daily_count (fun _ => "0") (fun s => s)
    { time := some ["2026-10-12", "2026-10-13", "2026-10-14"],
      temperature_2m_max := some [10, 11, 12],
      temperature_2m_min := some [1, 2, 3],
      precipitation_sum := none, weather_code := none, wind_speed_10m_max := none }
    ["2026-10-12", "2026-10-13", "2026-10-14"] 7 (by decide) (by decide)).1
  simpa using h

/-- C6: for every name, the greeting handlers return exactly
`안녕하세요, \x7bname\x7d님!` when the language is `ko` and exactly
`Hey there, \x7bname\x7d! 👋 Nice to meet you!` otherwise; in particular
`\x7bname: Tom, language: ko\x7d` yields exactly `안녕하세요, Tom님!`. -/
theorem greet_text_exact :
    (∀ name : String,
        greet_v1 name Language.ko =
          { content := [ContentBlock.text ("안녕하세요, " ++ name ++ "님!")],
            structuredContent := none, isError := false }
        ∧ greet_v1 name Language.en =
          { content := [ContentBlock.text ("Hey there, " ++ name ++ "! 👋 Nice to meet you!")],
            structuredContent := none, isError := false }
        ∧ (greet_v2 name Language.ko).content =
            [ContentBlock.text ("안녕하세요, " ++ name ++ "님!")]
        ∧ (greet_v2 name Language.en).content =
            [ContentBlock.text ("Hey there, " ++ name ++ "! 👋 Nice to meet you!")])
    ∧ greet_v1 "Tom" Language.ko =
        { content := [ContentBlock.text "안녕하세요, Tom님!"],
          structuredContent := none, isError := false }
    ∧ (greet_v2 "Tom" Language.ko).content = [ContentBlock.text "안녕하세요, Tom님!"] := by
  refine ⟨fun name => ⟨rfl, rfl, rfl, rfl⟩, ?_, ?_⟩
  · decide
  · decide

/-- C7: for every language in the schema enum, the greeting handler is a pure
deterministic function of its inputs (equal inputs give equal results), and
omitting `language` is equivalent to supplying `en`, in both variants. -/
theorem greet_deterministic_default :
    (∀ (n₁ n₂ : String) (l₁ l₂ : Option Language), n₁ = n₂ → l₁ = l₂ →
        greetInvoke_v1 n₁ l₁ = greetInvoke_v1 n₂ l₂
        ∧ greetInvoke_v2 n₁ l₁ = greetInvoke_v2 n₂ l₂)
    ∧ (∀ name : String,
        greetInvoke_v1 name none = greetInvoke_v1 name (some Language.en)
        ∧ greetInvoke_v2 name none = greetInvoke_v2 name (some Language.en)) := by
  constructor
  · intro n₁ n₂ l₁ l₂ hn hl
    subst hn
    subst hl
    exact ⟨rfl, rfl⟩
  · intro name
    exact ⟨rfl, rfl⟩

/-- Witness for C7 at concrete inputs. -/
theorem greet_deterministic_default_witness :
    greetInvoke_v1 "Tom" (some Language.ko) = greetInvoke_v1 "Tom" (some Language.ko)
    ∧ greetInvoke_v2 "Tom" (some Language.ko) = greetInvoke_v2 "Tom" (some Language.ko) :=
  greet_deterministic_default.1 "Tom" "Tom" (some Language.ko) (some Language.ko) rfl rfl

/-- C8 counterexample: the `src/index.ts` geocode handler, on a match that
carries a country code (`kr`), an importance score and address details,
produces a block with only the display name, latitude and longitude — the
output contains no country-code line, no uppercased country code and no
importance line, refuting the claim for this variant. -/
theorem geocode_rich_format_cex :
    geocode_v1 (FetchOutcome.ok (some [cexMatch])) "Seoul" 1 none =
      { content := [ContentBlock.text
          "검색어: \"Seoul\"\n\n결과 1:\n주소: Seoul, South Korea\n위도: 37.55\n경도: 126.99"],
        structuredContent := none, isError := false }
    ∧ ¬ List.IsInfix "국가 코드".data
        "검색어: \"Seoul\"\n\n결과 1:\n주소: Seoul, South Korea\n위도: 37.55\n경도: 126.99".data
    ∧ ¬ List.IsInfix "KR".data
        "검색어: \"Seoul\"\n\n결과 1:\n주소: Seoul, South Korea\n위도: 37.55\n경도: 126.99".data
    ∧ ¬ List.IsInfix "중요도".data
        "검색어: \"Seoul\"\n\n결과 1:\n주소: Seoul, South Korea\n위도: 37.55\n경도: 126.99".data := by
  refine ⟨by decide, by decide, by decide, by decide⟩

/-- C8 amended: for every non-empty upstream result list, the `_v2` geocode
handler formats each match as a numbered block containing the display name,
latitude, longitude, country code, an importance score rendered by
`toFixed(4)` when present (`N/A` otherwise) and any available detail lines,
blank-line separated under a header restating the query and any country
filter; the `src/index.ts` handler instead numbers each match with only the
display name, latitude and longitude under a header restating the query
alone. -/
theorem geocode_rich_format :
    (∀ (pf : String → String) (tf4 : ℚ → String) (address : String) (limit : Nat)
        (country : Option String) (r : NominatimResult) (rs : List NominatimResult),
        geocode_v2 pf tf4 (FetchOutcome.ok (some (r :: rs))) address limit country =
          Except.ok
            { content := [ContentBlock.text (geocodeHeaderText_v2 address country
                ++ String.intercalate "\n\n"
                  (jsMapIdx (formatMatch_v2 pf tf4 address) (r :: rs)))],
              structuredContent := some [ContentBlock.text (geocodeHeaderText_v2 address country
                ++ String.intercalate "\n\n"
                  (jsMapIdx (formatMatch_v2 pf tf4 address) (r :: rs)))],
              isError := false }
        ∧ (jsMapIdx (formatMatch_v2 pf tf4 address) (r :: rs)).length = (r :: rs).length
        ∧ ∀ (i : Nat) (ri : NominatimResult), (r :: rs)[i]? = some ri →
            ∃ rest, (jsMapIdx (formatMatch_v2 pf tf4 address) (r :: rs))[i]? =
              some ("결과 " ++ toString (i + 1) ++ ":\n주소: " ++ jsOrD ri.display_name address
                ++ "\n위도: " ++ pf ri.lat ++ "\n경도: " ++ pf ri.lon
                ++ "\n국가 코드: "
                ++ jsOrD ((ri.address.bind NominatimAddress.country_code).map String.toUpper)
                    "N/A"
                ++ "\n중요도: "
                ++ (if jsTruthyQ ri.importance then tf4 (ri.importance.getD 0) else "N/A")
                ++ rest))
    ∧ (∀ (address : String) (limit : Nat) (country : Option String)
        (r : NominatimResult) (rs : List NominatimResult),
        geocode_v1 (FetchOutcome.ok (some (r :: rs))) address limit country =
          { content := [ContentBlock.text ("검색어: \"" ++ address ++ "\"\n\n"
              ++ String.intercalate "\n\n" (jsMapIdx formatMatch_v1 (r :: rs)))],
            structuredContent := none, isError := false }
        ∧ ∀ (i : Nat) (ri : NominatimResult), (r :: rs)[i]? = some ri →
            (jsMapIdx formatMatch_v1 (r :: rs))[i]? =
              some ("결과 " ++ toString (i + 1) ++ ":\n주소: "
                ++ ri.display_name.getD "undefined"
                ++ "\n위도: " ++ ri.lat ++ "\n경도: " ++ ri.lon)) := by
  constructor
  · intro pf tf4 address limit country r rs
    refine ⟨rfl, length_jsMapIdx _ _, ?_⟩
    intro i ri hi
    refine ⟨formatDetail_v2 ri, ?_⟩
    rw [getElem?_jsMapIdx, hi]
    rfl
  · intro address limit country r rs
    refine ⟨rfl, ?_⟩
    intro i ri hi
    rw [getElem?_jsMapIdx, hi]
    rfl

/-- Witness for the C8 amended theorem: the `_v2` block for a concrete match
is the numbered block carrying all the listed fields. -/
theorem geocode_rich_format_witness :
    ([cexMatch] : List NominatimResult)[0]? = some cexMatch
    ∧ ∃ rest, (jsMapIdx (formatMatch_v2 (fun s => s) (fun _ => "0.7000") "Seoul") [cexMatch])[0]?
        = some ("결과 " ++ toString (0 + 1) ++ ":\n주소: " ++ jsOrD cexMatch.display_name "Seoul"
            ++ "\n위도: " ++ cexMatch.lat ++ "\n경도: " ++ cexMatch.lon
            ++ "\n국가 코드: "
            ++ jsOrD ((cexMatch.address.bind NominatimAddress.country_code).map String.toUpper)
                "N/A"
            ++ "\n중요도: "
            ++ (if jsTruthyQ cexMatch.importance then "0.7000" else "N/A")
            ++ rest) :=
  ⟨rfl, (geocode_rich_format.1 (fun s => s) (fun _ => "0.7000") "Seoul" 1 none
    cexMatch []).2.2 0 cexMatch rfl⟩

/-- C9 counterexample: in the `_v2` variant with no credential supplied
anywhere, the outbound inference call is still made (first component `true`),
so the handler does not fail with a missing-credential condition before the
call; the failure surfaces only afterwards, wrapped with a credential hint. -/
theorem generateImage_missing_credential_cex :
    (generateImage_v2 none (fun _ _ => ImageOutcome.err (some "fetch failed")) "a cat").1 = true
    ∧ (generateImage_v2 none (fun _ _ => ImageOutcome.err (some "fetch failed")) "a cat").2 =
        Except.error
          "이미지 생성 오류: fetch failed. HF_TOKEN 환경 변수가 설정되어 있는지 확인해주세요." :=
  ⟨rfl, congrArg Except.error (by decide)⟩

/-- C9 amended: in the `src/index.ts` variant, when the credential is absent
or empty the handler fails with the missing-credential message naming
`HF_TOKEN` without making any outbound inference call, and — in both
variants — every tool other than `generate-image` behaves identically under
any credential; the `_v2` variant instead always attempts the outbound
inference call and wraps any failure in an error carrying the upstream
message and a hint to check the `HF_TOKEN` credential. -/
theorem generateImage_credential_policy :
    (∀ (hfToken : Option String) (upstream : String → ImageOutcome) (prompt : String),
        jsTruthy hfToken = false →
        generateImage_v1 hfToken upstream prompt =
          (false,
            { content := [ContentBlock.text "HF_TOKEN 환경 변수가 설정되지 않았습니다."],
              structuredContent := none, isError := true }))
    ∧ (∀ (env : Env) (t tp : Option String) (req : ToolRequest),
        isImageReq req = false →
        invoke_v1 { env with hfToken := t } req = invoke_v1 { env with hfToken := tp } req)
    ∧ (∀ (env : Env2) (t tp : Option String) (req : ToolRequest2),
        isImageReq2 req = false →
        invoke_v2 { env with token := t } req = invoke_v2 { env with token := tp } req)
    ∧ (∀ (token : Option String) (upstream : Option String → String → ImageOutcome)
          (prompt : String),
        (generateImage_v2 token upstream prompt).1 = true)
    ∧ (∀ (token : Option String) (upstream : Option String → String → ImageOutcome)
          (prompt : String) (msg : Option String),
        upstream token prompt = ImageOutcome.err msg →
        (generateImage_v2 token upstream prompt).2 =
          Except.error ("이미지 생성 오류: " ++ msg.getD "알 수 없는 오류가 발생했습니다."
            ++ ". HF_TOKEN 환경 변수가 설정되어 있는지 확인해주세요.")) := by
  refine ⟨?_, ?_, ?_, ?_, ?_⟩
  · intro hfToken upstream prompt h
    simp [generateImage_v1, h]
  · intro env t tp req h
    cases req with
    | greet name language => rfl
    | calculator num1 num2 operator => rfl
    | getTime timezone => rfl
    | geocode address limit country => rfl
    | getWeather latitude longitude forecast_days => rfl
    | generateImage prompt => simp [isImageReq] at h
  · intro env t tp req h
    cases req with
    | greet name language => rfl
    | calculator num1 num2 operator => rfl
    | getTime timezone => rfl
    | geocode address limit country => rfl
    | getWeather latitude longitude forecast_days timezone => rfl
    | generateImage prompt => simp [isImageReq2] at h
  · intro token upstream prompt
    unfold generateImage_v2
    cases upstream token prompt <;> rfl
  · intro token upstream prompt msg h
    simp only [generateImage_v2, h]

/-- Witness for the C9 amended theorem at concrete inputs and environments. -/
theorem generateImage_credential_policy_witness :
    generateImage_v1 none (fun _ => ImageOutcome.ok "QUJD") "a cat" =
      (false,
        { content := [ContentBlock.text "HF_TOKEN 환경 변수가 설정되지 않았습니다."],
          structuredContent := none, isError := true })
    ∧ invoke_v1 { sampleEnv with hfToken := none } (ToolRequest.greet "Tom" none)
        = invoke_v1 { sampleEnv with hfToken := some "tok" } (ToolRequest.greet "Tom" none)
    ∧ invoke_v2 { sampleEnv2 with token := none } (ToolRequest2.greet "Tom" none)
        = invoke_v2 { sampleEnv2 with token := some "tok" } (ToolRequest2.greet "Tom" none)
    ∧ (generateImage_v2 (some "tok") (fun _ _ => ImageOutcome.err (some "boom")) "x").2 =
        Except.error "이미지 생성 오류: boom. HF_TOKEN 환경 변수가 설정되어 있는지 확인해주세요." := by
  refine ⟨?_, ?_, ?_, ?_⟩
  · exact generateImage_credential_policy.1 none (fun _ => ImageOutcome.ok "QUJD") "a cat" rfl
  · exact generateImage_credential_policy.2.1 sampleEnv none (some "tok")
      (ToolRequest.greet "Tom" none) rfl
  · exact generateImage_credential_policy.2.2.1 sampleEnv2 none (some "tok")
      (ToolRequest2.greet "Tom" none) rfl
  · have h := generateImage_credential_policy.2.2.2.2 (some "tok")
      (fun _ _ => ImageOutcome.err (some "boom")) "x" (some "boom") rfl
    exact h.trans (congrArg Except.error (by decide))

/-- C10: the weather-code decoding function is total over the integers — for
every code present in the static table it returns that code's description
string (which carries its icon glyph), for every integer code absent from the
table it returns the fallback `날씨 코드: \x7bcode\x7d`, and it never returns an
empty string. -/
theorem getWeatherDescription_total :
    (∀ (code : Int) (desc : String), (code, desc) ∈ weatherCodes →
        getWeatherDescription code = desc)
    ∧ (∀ code : Int, code ∉ weatherCodes.map Prod.fst →
        getWeatherDescription code = "날씨 코드: " ++ toString code)
    ∧ (∀ code : Int, getWeatherDescription code ≠ "") := by
  refine ⟨?_, ?_, ?_⟩
  · intro code desc hmem
    exact (by decide : ∀ p ∈ weatherCodes, getWeatherDescription p.1 = p.2) (code, desc) hmem
  · intro code hkeys
    unfold getWeatherDescription
    rw [lookup_eq_none_of_not_mem_keys weatherCodes code hkeys]
  · intro code
    unfold getWeatherDescription
    cases hl : weatherCodes.lookup code with
    | none => exact weatherFallback_ne_empty code
    | some desc =>
      show (if desc = "" then "날씨 코드: " ++ toString code else desc) ≠ ""
      by_cases hd : desc = ""
      · rw [if_pos hd]
        exact weatherFallback_ne_empty code
      · rw [if_neg hd]
        exact hd

/-- Witness for C10: a code in the table and a code absent from it. -/
theorem getWeatherDescription_total_witness :
    getWeatherDescription 0 = "☀️ 맑음" ∧ getWeatherDescription 4 = "날씨 코드: 4" := by
  constructor
  · exact getWeatherDescription_total.1 0 "☀️ 맑음" (by decide)
  · exact (getWeatherDescription_total.2.1 4 (by decide)).trans (by decide)

end McpServer
